/-
Verification of the orchestration scripts `data_prep.py` and `main.py`.

The Python code is shallowly embedded: every outside effect (the token
file, environment variables, the HTTP responses of the Dataprep REST
service, the BigQuery client) is an explicit input, printing is an
explicit output log, and a Python exception that escapes a function is
an `Except.error` value.  Functions keep the names of the source.
-/
import Mathlib

set_option linter.unusedVariables false

namespace DataPrep

/-- A parsed JSON document, the result of `json.load` / `response.json()`. -/
inductive Json where
  | null : Json
  | bool (b : Bool) : Json
  | num (n : Int) : Json
  | str (s : String) : Json
  | arr (elems : List Json) : Json
  | obj (fields : List (String × Json)) : Json

/-- Python truthiness of a JSON value (`if not x`). -/
def Json.truthy : Json → Bool
  | .null => false
  | .bool b => b
  | .num n => n != 0
  | .str s => !s.isEmpty
  | .arr elems => !elems.isEmpty
  | .obj fields => !fields.isEmpty

/-- Lookup of a key in the field list of a JSON object (Python `dict.get`,
returning `None` when the key is absent). -/
def Json.getField : List (String × Json) → String → Option Json
  | [], _ => none
  | (k, v) :: rest, key => if k = key then some v else Json.getField rest key

/-- Python truthiness of an optional JSON value (`None` is falsy). -/
def optTruthy : Option Json → Bool
  | none => false
  | some j => j.truthy

/-- A Python exception that escapes a function of the script. -/
inductive PyErr where
  | valueError (msg : String)
  | attributeError (msg : String)
deriving DecidableEq, Repr

/-- `x.get(key)`: field lookup on a JSON value.  On a non-object the
Python attribute access `.get` raises `AttributeError`. -/
def dictGet (j : Json) (key : String) : Except PyErr (Option Json) :=
  match j with
  | .obj fields => .ok (Json.getField fields key)
  | _ => .error (.attributeError "json value has no attribute get")

/-- The state of the local token file `authentication/dataprep_token.json`:
absent (`open` raises `FileNotFoundError`), present but not valid JSON
(`json.load` raises `json.JSONDecodeError`), or a parsed JSON document. -/
inductive TokenFile where
  | missing : TokenFile
  | invalidJson : TokenFile
  | content (j : Json) : TokenFile

/-- `get_token` of `data_prep.py`.  Returns the extracted token (`.ok (some t)`),
the `None` sentinel after a caught file error (`.ok none`, with the printed
error line), or an uncaught exception.  The `except` clause catches only
`FileNotFoundError` and `json.JSONDecodeError`, so the `ValueError` raised
when the `"dataprep_token"` field is absent or falsy escapes the function. -/
def get_token (file : TokenFile) : Except PyErr (Option Json × List String) :=
  match file with
  | .missing => .ok (none, ["Error reading token file: FileNotFoundError"])
  | .invalidJson => .ok (none, ["Error reading token file: JSONDecodeError"])
  | .content j =>
    match j with
    | .obj fields =>
      let auth_token := Json.getField fields "dataprep_token"
      if optTruthy auth_token then
        .ok (auth_token, [])
      else
        .error (.valueError "Token not found in dataprep_token.json")
    | _ => .error (.attributeError "json value has no attribute get")

/-- The two proxy environment variables.  `none` is an unset variable;
`some ""` is a variable set to the empty string (`os.getenv` returns it). -/
structure Env where
  httpProxy : Option String
  httpsProxy : Option String
deriving DecidableEq, Repr

/-- Python truthiness of an `os.getenv` result: unset (`None`) and the
empty string are both falsy. -/
def strTruthy : Option String → Bool
  | none => false
  | some s => !s.isEmpty

/-- The proxies dictionary handed to `requests`; each value is the raw
`os.getenv` result (possibly `None`). -/
structure Proxies where
  http : Option String
  https : Option String
deriving DecidableEq, Repr

/-- `get_proxies` of `data_prep.py`. -/
def get_proxies (env : Env) : Option Proxies :=
  if strTruthy env.httpProxy || strTruthy env.httpsProxy then
    some { http := env.httpProxy, https := env.httpsProxy }
  else
    none

/-- An HTTP response of the Dataprep REST service: `status_code`, the
parsed body `response.json()`, and the raw body `response.text`. -/
structure HttpResp where
  status_code : Nat
  body : Json
  text : String

/-- The remote Dataprep service, one response per endpoint of the script. -/
structure DataprepStub where
  probeResp : HttpResp
  flowResp : HttpResp
  connectionResp : HttpResp
  importResp : HttpResp
  wrangledResp : HttpResp
  jobResp : HttpResp
  jobStatusResp : HttpResp

/-- One outbound REST call, recorded in the order the script issues them. -/
inductive ApiCall where
  | probe : ApiCall
  | createFlow : ApiCall
  | createConnection : ApiCall
  | importDataset : ApiCall
  | createWrangled : ApiCall
  | launchJob : ApiCall
  | pollStatus : ApiCall
deriving DecidableEq, Repr

/-- `create_flow` of `data_prep.py`: POST `/v4/flows`, success code 201,
extracts `"id"` on success; otherwise prints the status code and body and
returns the `None` sentinel. -/
def create_flow (stub : DataprepStub) :
    Except PyErr (Option Json) × List ApiCall × List String :=
  let response := stub.flowResp
  if response.status_code = 201 then
    (dictGet response.body "id", [ApiCall.createFlow],
      ["Flow created successfully."])
  else
    (.ok none, [ApiCall.createFlow],
      ["Failed to create flow.",
       "Status Code: " ++ toString response.status_code,
       "Response: " ++ response.text])

/-- `create_bigquery_connection` of `data_prep.py`: POST `/v4/connections`,
success code 201, extracts `"id"` on success. -/
def create_bigquery_connection (stub : DataprepStub) :
    Except PyErr (Option Json) × List ApiCall × List String :=
  let response := stub.connectionResp
  if response.status_code = 201 then
    (dictGet response.body "id", [ApiCall.createConnection],
      ["BigQuery connection created successfully."])
  else
    (.ok none, [ApiCall.createConnection],
      ["Failed to create BigQuery connection.",
       "Status Code: " ++ toString response.status_code,
       "Response: " ++ response.text])

/-- `import_bigquery_dataset` of `data_prep.py`: POST `/v4/importedDatasets`,
success code 201, extracts `"id"` on success. -/
def import_bigquery_dataset (stub : DataprepStub) :
    Except PyErr (Option Json) × List ApiCall × List String :=
  let response := stub.importResp
  if response.status_code = 201 then
    (dictGet response.body "id", [ApiCall.importDataset],
      ["Dataset imported from BigQuery successfully."])
  else
    (.ok none, [ApiCall.importDataset],
      ["Failed to import dataset from BigQuery.",
       "Status Code: " ++ toString response.status_code,
       "Response: " ++ response.text])

/-- `create_wrangled_dataset` of `data_prep.py`: POST `/v4/wrangledDatasets`,
success code 201, extracts `"id"` on success. -/
def create_wrangled_dataset (stub : DataprepStub) :
    Except PyErr (Option Json) × List ApiCall × List String :=
  let response := stub.wrangledResp
  if response.status_code = 201 then
    (dictGet response.body "id", [ApiCall.createWrangled],
      ["Wrangled dataset created successfully."])
  else
    (.ok none, [ApiCall.createWrangled],
      ["Failed to create wrangled dataset.",
       "Status Code: " ++ toString response.status_code,
       "Response: " ++ response.text])

/-- The result dictionary of `connect_bigquery_to_dataprep`; each field is
the raw value (possibly `None`) the corresponding step produced. -/
structure ConnectResult where
  flow_id : Option Json
  connection_id : Option Json
  dataset_id : Option Json
  wrangled_dataset_id : Option Json

/-- `connect_bigquery_to_dataprep` of `data_prep.py`: create flow, create
connection, import dataset, create wrangled dataset, in that order, checking
`if not id: return None` after each of the first three steps.  The result of
the final step is stored unchecked. -/
def connect_bigquery_to_dataprep (stub : DataprepStub) :
    Except PyErr (Option ConnectResult) × List ApiCall × List String :=
  let (flowRes, c1, l1) := create_flow stub
  match flowRes with
  | .error e => (.error e, c1, l1)
  | .ok flow_id =>
    if !optTruthy flow_id then
      (.ok none, c1, l1)
    else
      let (connRes, c2, l2) := create_bigquery_connection stub
      match connRes with
      | .error e => (.error e, c1 ++ c2, l1 ++ l2)
      | .ok connection_id =>
        if !optTruthy connection_id then
          (.ok none, c1 ++ c2, l1 ++ l2)
        else
          let (dsRes, c3, l3) := import_bigquery_dataset stub
          match dsRes with
          | .error e => (.error e, c1 ++ c2 ++ c3, l1 ++ l2 ++ l3)
          | .ok dataset_id =>
            if !optTruthy dataset_id then
              (.ok none, c1 ++ c2 ++ c3, l1 ++ l2 ++ l3)
            else
              let (wrRes, c4, l4) := create_wrangled_dataset stub
              match wrRes with
              | .error e =>
                (.error e, c1 ++ c2 ++ c3 ++ c4, l1 ++ l2 ++ l3 ++ l4)
              | .ok wrangled_dataset_id =>
                (.ok (some { flow_id := flow_id, connection_id := connection_id,
                             dataset_id := dataset_id,
                             wrangled_dataset_id := wrangled_dataset_id }),
                 c1 ++ c2 ++ c3 ++ c4, l1 ++ l2 ++ l3 ++ l4)

/-- `test_dataprep_connection` of `data_prep.py`: fetch the token, GET the
open-api-spec endpoint, success code 200, result is a boolean. -/
def test_dataprep_connection (file : TokenFile) (stub : DataprepStub) :
    Except PyErr (Bool × List ApiCall × List String) :=
  match get_token file with
  | .error e => .error e
  | .ok (auth_token, tokenLog) =>
    if !optTruthy auth_token then
      .ok (false, [], tokenLog)
    else
      let response := stub.probeResp
      if response.status_code = 200 then
        .ok (true, [ApiCall.probe],
          tokenLog ++ ["Connection to Cloud Dataprep API successful."])
      else
        .ok (false, [ApiCall.probe],
          tokenLog ++ ["Failed to connect to Cloud Dataprep API.",
            "Status Code: " ++ toString response.status_code,
            "Response: " ++ response.text])

/-- `check_job_status` of `data_prep.py`: GET `/v4/jobGroups/(job id)`,
success code 200, extracts the `"status"` field on success. -/
def check_job_status (stub : DataprepStub) :
    Except PyErr (Option Json) × List ApiCall × List String :=
  let response := stub.jobStatusResp
  if response.status_code = 200 then
    match dictGet response.body "status" with
    | .error e => (.error e, [ApiCall.pollStatus], [])
    | .ok status => (.ok status, [ApiCall.pollStatus], ["Job status printed"])
  else
    (.ok none, [ApiCall.pollStatus],
      ["Failed to get job status.",
       "Status Code: " ++ toString response.status_code,
       "Response: " ++ response.text])

/-- `run_dataprep_job` of `data_prep.py`: fetch the token when none was
passed, require a wrangled-dataset id, POST `/v4/jobGroups` with success
code 201, extract the job `"id"` and poll its status once. -/
def run_dataprep_job (file : TokenFile) (stub : DataprepStub)
    (auth_token : Option Json) (wrangled_dataset_id : Option Json) :
    Except PyErr (Option Json) × List ApiCall × List String :=
  let tokenStep : Except PyErr (Option Json × List String) :=
    if optTruthy auth_token then .ok (auth_token, []) else get_token file
  match tokenStep with
  | .error e => (.error e, [], [])
  | .ok (auth_token, tokenLog) =>
    if !optTruthy auth_token then
      (.ok none, [], tokenLog ++ ["Authentication token not available."])
    else if !optTruthy wrangled_dataset_id then
      (.ok none, [], tokenLog ++
        ["No wrangled dataset ID provided. Please connect to Dataprep first."])
    else
      let response := stub.jobResp
      if response.status_code = 201 then
        match dictGet response.body "id" with
        | .error e => (.error e, [ApiCall.launchJob], tokenLog)
        | .ok job_id =>
          let (stRes, stCalls, stLog) := check_job_status stub
          match stRes with
          | .error e => (.error e, ApiCall.launchJob :: stCalls,
              tokenLog ++ ["Cloud Dataprep job started successfully"] ++ stLog)
          | .ok _ => (.ok job_id, ApiCall.launchJob :: stCalls,
              tokenLog ++ ["Cloud Dataprep job started successfully"] ++ stLog)
      else
        (.ok none, [ApiCall.launchJob],
          tokenLog ++ ["Failed to start Cloud Dataprep job.",
            "Status Code: " ++ toString response.status_code,
            "Response: " ++ response.text])

/-- The external BigQuery side of `data_prep.py`: whether the service
account file loads and the client constructs, whether `get_dataset`
succeeds (dataset exists), whether `create_dataset` succeeds, and whether
the `CREATE OR REPLACE TABLE` query succeeds.  A `false` models the call
raising, which the script catches. -/
structure BqWorld where
  clientInitOk : Bool
  datasetExists : Bool
  createDatasetOk : Bool
  queryOk : Bool

/-- `authenticate_with_gcp` of `data_prep.py`: returns whether the global
`BIG_QUERY_CLIENT` is now set, with the printed line. -/
def authenticate_with_gcp (w : BqWorld) : Bool × List String :=
  if w.clientInitOk then
    (true, ["Successfully authenticated with GCP project: intrepid-signal-310513"])
  else
    (false, ["Error authenticating with GCP: exception"])

/-- `create_bigquery_dataset` of `data_prep.py`: re-authenticate when the
global client is unset, check dataset existence (creating it when the
lookup raises), run the table-creation query; any exception inside the
`try` is caught and yields `False`. -/
def create_bigquery_dataset (clientSet : Bool) (w : BqWorld) :
    Bool × Bool × List String :=
  let (clientSet2, authLog) :=
    if clientSet then (true, ([] : List String)) else authenticate_with_gcp w
  if clientSet2 = false then
    (false, false,
      authLog ++ ["BigQuery client not initialized. Authentication failed."])
  else if w.datasetExists then
    if w.queryOk then
      (true, true, authLog ++ ["Dataset ecommerce already exists.",
        "Table all_sessions_raw_dataprep created with sample data."])
    else
      (true, false, authLog ++ ["Dataset ecommerce already exists.",
        "Error creating BigQuery dataset: query failed"])
  else if w.createDatasetOk then
    if w.queryOk then
      (true, true, authLog ++ ["Dataset ecommerce created.",
        "Table all_sessions_raw_dataprep created with sample data."])
    else
      (true, false, authLog ++ ["Dataset ecommerce created.",
        "Error creating BigQuery dataset: query failed"])
  else
    (true, false, authLog ++ ["Error creating BigQuery dataset: create failed"])

/-- `main` of `data_prep.py`: authenticate, test the Dataprep connection,
create the BigQuery dataset, fetch the token again and run
`connect_bigquery_to_dataprep`, short-circuiting with an `Exiting` line
after each failed step.  An uncaught exception in a step escapes `main`. -/
def main (file : TokenFile) (env : Env) (w : BqWorld) (stub : DataprepStub) :
    Except PyErr (List ApiCall × List String) :=
  let log0 := ["Welcome to the Data Prep API Examples project!"]
  let (clientSet, authLog) := authenticate_with_gcp w
  let log1 := log0 ++ authLog ++
    ["Step 1: Testing connection to Cloud Dataprep API..."]
  match test_dataprep_connection file stub with
  | .error e => .error e
  | .ok (connOk, calls1, testLog) =>
    if !connOk then
      .ok (calls1, log1 ++ testLog ++
        ["Failed to connect to Cloud Dataprep API. Exiting."])
    else
      let log2 := log1 ++ testLog ++ ["Step 2: Creating BigQuery dataset..."]
      let (clientSet2, bqOk, bqLog) := create_bigquery_dataset clientSet w
      if !bqOk then
        .ok (calls1, log2 ++ bqLog ++
          ["Failed to create BigQuery dataset. Exiting."])
      else
        match get_token file with
        | .error e => .error e
        | .ok (auth_token, tokenLog) =>
          let log3 := log2 ++ bqLog ++ tokenLog ++
            ["Step 3: Connecting BigQuery data to Cloud Dataprep..."]
          let (connRes, calls2, connectLog) := connect_bigquery_to_dataprep stub
          match connRes with
          | .error e => .error e
          | .ok connection_details =>
            match connection_details with
            | none =>
              .ok (calls1 ++ calls2, log3 ++ connectLog ++
                ["Failed to connect BigQuery data to Cloud Dataprep. Exiting."])
            | some _ =>
              .ok (calls1 ++ calls2, log3 ++ connectLog ++
                ["All steps completed successfully!"])

end DataPrep

namespace BqMain

/-- A BigQuery dataset descriptor as `main.py` manipulates it: the full
`project.dataset` name and the two default expiration settings. -/
structure Dataset where
  name : String
  default_table_expiration_ms : Option Nat
  default_partition_expiration_ms : Option Nat
deriving DecidableEq, Repr

/-- The warehouse catalog: the datasets that currently exist. -/
abbrev Catalog := List Dataset

/-- The external BigQuery client call `client.create_dataset(dataset,
exists_ok=True)`: when a dataset of that name exists the call is a no-op
returning the existing descriptor, otherwise the dataset is created. -/
def clientCreateDataset (st : Catalog) (d : Dataset) : Catalog × Dataset :=
  match st.find? (fun e => e.name = d.name) with
  | some existing => (st, existing)
  | none => (st ++ [d], d)

/-- The `bigquery.Dataset` request object `create_dataset` of `main.py`
builds: both default expirations are set to 59 days in milliseconds. -/
def dataset_request (dataset_name : String) : Dataset :=
  { name := dataset_name,
    default_table_expiration_ms := some (59 * 24 * 60 * 60 * 1000),
    default_partition_expiration_ms := some (59 * 24 * 60 * 60 * 1000) }

/-- `create_dataset` of `main.py`: build the request descriptor, call the
client with `exists_ok=True`, print a line.  The Python function has no
`return` statement, so its value is `None` (the first component). -/
def create_dataset (dataset_name : String) (st : Catalog) :
    Option Dataset × Catalog × List String :=
  let dataset := dataset_request dataset_name
  let (st2, created) := clientCreateDataset st dataset
  (none, st2,
    ["Created dataset " ++ created.name ++
     " with a default expiration of 59 days and partition expiration of 59 days"])

/-- `get_dataset` of `main.py`: the client lookup, with `NotFound` caught
and converted to `None` plus a printed line. -/
def get_dataset (dataset_name : String) (st : Catalog) :
    Option Dataset × List String :=
  match st.find? (fun e => e.name = dataset_name) with
  | some d => (some d, [])
  | none => (none, ["Dataset " ++ dataset_name ++ " not found."])

/-- The paged remote catalog listing: `client.list_datasets(page_token)`
returns the page the token names together with the continuation token of
the following page; the last page carries no continuation token.  Pages
are modelled as a list of pages of dataset ids and tokens as page indices. -/
def fetchPage (pages : List (List String)) (tok : Nat) :
    List String × Option Nat :=
  (pages.getD tok [],
   if tok + 1 < pages.length then some (tok + 1) else none)

/-- The `while True` pagination loop of `list_datasets` in `main.py`:
fetch the page of the current token, print each dataset id, follow the
continuation token, stop when it is absent.  The fuel argument only
bounds the iteration count so the recursion is structural; `list_datasets`
supplies enough fuel for every page. -/
def listLoop (pages : List (List String)) : Nat → Nat → List String
  | _tok, 0 => []
  | tok, fuel + 1 =>
    let (page, nextTok) := fetchPage pages tok
    let printed := page.map (fun d => "Dataset ID: " ++ d)
    match nextTok with
    | none => printed
    | some t => printed ++ listLoop pages t fuel

/-- `list_datasets` of `main.py`.  The initial `if not datasets` guard can
never fire (the client returns an iterator object, which is truthy), so
the loop always runs, starting with no page token (page 0). -/
def list_datasets (pages : List (List String)) : List String :=
  listLoop pages 0 pages.length

/-- Constants of `main.py`. -/
def PROJECT : String := "intrepid-signal-310513"

/-- The dataset name constant of `main.py`. -/
def DATA_SET_NAME : String := "bqml_lab"

/-- The model type constant of `main.py`. -/
def MODEL_TYPE : String := "linear_reg"

/-- Decimal string representation of a natural number, the meaning of
Python `str(n)` inside the f-string: most significant digit first. -/
def decimalRepr (n : Nat) : String :=
  if n = 0 then "0" else ((Nat.digits 10 n).reverse.map Nat.digitChar).asString

/-- `MODEL_NAME` of `main.py`: `f"test-model-(random.randint(100000, 999999))"`.
The random draw is the explicit argument `r`, fixed once at module load. -/
def MODEL_NAME (r : Nat) : String := "test-model-" ++ decimalRepr r

/-- Text of `create_ml_model_sql` before the model name. -/
def create_ml_model_sql_head : String :=
  "\n    CREATE OR REPLACE MODEL `" ++ PROJECT ++ "." ++ DATA_SET_NAME ++ "."

/-- Text of `create_ml_model_sql` after the model name. -/
def create_ml_model_sql_tail : String :=
  "`\n    OPTIONS(\n        model_type = '" ++ MODEL_TYPE ++
  "'  -- Specify the type of model as logistic regression\n    ) AS\n    SELECT\n" ++
  "        IF(totals.transactions IS NULL, 0, 1) AS label,  -- Binary label: 1 if transactions exist, otherwise 0\n" ++
  "        IFNULL(device.operatingSystem, \"\") AS os,        -- Operating system, default to empty string if NULL\n" ++
  "        device.isMobile AS is_mobile,                   -- Boolean indicating if the device is mobile\n" ++
  "        IFNULL(geoNetwork.country, \"\") AS country,      -- Country, default to empty string if NULL\n" ++
  "        IFNULL(totals.pageviews, 0) AS pageviews        -- Number of pageviews, default to 0 if NULL\n" ++
  "    FROM\n        `bigquery-public-data.google_analytics_sample.ga_sessions_*`  -- Public dataset for Google Analytics sample\n" ++
  "    WHERE\n        _TABLE_SUFFIX BETWEEN '20160801' AND '20170631'  -- Filter data by date range\n" ++
  "    LIMIT 3000;  -- Limit the number of rows to 3000 to avoid excessive data usage\n    "

/-- The `CREATE OR REPLACE MODEL` statement of `main.py`, an f-string that
interpolates the model name exactly once. -/
def create_ml_model_sql (r : Nat) : String :=
  create_ml_model_sql_head ++ MODEL_NAME r ++ create_ml_model_sql_tail

/-- Text of `evaluate_model_sql` before the model name. -/
def evaluate_model_sql_head : String :=
  "\n    SELECT\n        *  -- Select all columns from the evaluation results\n" ++
  "    FROM\n        ml.EVALUATE(\n            MODEL `" ++ PROJECT ++ "." ++ DATA_SET_NAME ++ "."

/-- Text of `evaluate_model_sql` after the model name. -/
def evaluate_model_sql_tail : String :=
  "`,  -- Specify the model to evaluate\n            (\n                SELECT\n" ++
  "                    IF(totals.transactions IS NULL, 0, 1) AS label,\n" ++
  "                    IFNULL(device.operatingSystem, \"\") AS os,\n" ++
  "                    device.isMobile AS is_mobile,\n" ++
  "                    IFNULL(geoNetwork.country, \"\") AS country,\n" ++
  "                    IFNULL(totals.pageviews, 0) AS pageviews\n" ++
  "                FROM\n                    `bigquery-public-data.google_analytics_sample.ga_sessions_*`\n" ++
  "                WHERE\n                    _TABLE_SUFFIX BETWEEN '20170701' AND '20170801'\n" ++
  "            )\n        );\n    "

/-- The `ml.EVALUATE` statement of `main.py`. -/
def evaluate_model_sql (r : Nat) : String :=
  evaluate_model_sql_head ++ MODEL_NAME r ++ evaluate_model_sql_tail

/-- Text of `predict_model_sql` before the model name. -/
def predict_model_sql_head : String :=
  "\n    SELECT\n        fullVisitorId,\n        SUM(predicted_label) AS total_predicted_purchases\n" ++
  "    FROM\n        ml.PREDICT(\n            MODEL `" ++ PROJECT ++ "." ++ DATA_SET_NAME ++ "."

/-- Text of `predict_model_sql` after the model name. -/
def predict_model_sql_tail : String :=
  "`,  -- Specify the model to use for predictions\n            (\n                SELECT\n" ++
  "                    IFNULL(device.operatingSystem, \"\") AS os,\n" ++
  "                    device.isMobile AS is_mobile,\n" ++
  "                    IFNULL(totals.pageviews, 0) AS pageviews,\n" ++
  "                    IFNULL(geoNetwork.country, \"\") AS country,\n" ++
  "                    fullVisitorId\n" ++
  "                FROM\n                    `bigquery-public-data.google_analytics_sample.ga_sessions_*`\n" ++
  "                WHERE\n                    _TABLE_SUFFIX BETWEEN '20170701' AND '20170801'\n" ++
  "            )\n        )\n    GROUP BY\n        fullVisitorId\n" ++
  "    ORDER BY\n        total_predicted_purchases DESC\n    LIMIT 10;\n    "

/-- The `ml.PREDICT` statement of `main.py`. -/
def predict_model_sql (r : Nat) : String :=
  predict_model_sql_head ++ MODEL_NAME r ++ predict_model_sql_tail

/-- Text of `delete_model_sql` before the model name. -/
def delete_model_sql_head : String :=
  "DROP MODEL IF EXISTS `" ++ PROJECT ++ "." ++ DATA_SET_NAME ++ "."

/-- The `DROP MODEL` statement of `main.py`. -/
def delete_model_sql (r : Nat) : String :=
  delete_model_sql_head ++ MODEL_NAME r ++ "`;"

end BqMain

namespace DataPrep

/-- The step "fails / returns no id" in the sense checked by the
orchestrator: the call returned normally and its value is falsy. -/
def idMissing : Except PyErr (Option Json) → Bool
  | .ok j => !optTruthy j
  | .error _ => false

/-- The step succeeded with a truthy id. -/
def idOk : Except PyErr (Option Json) → Bool
  | .ok j => optTruthy j
  | .error _ => false

end DataPrep

/-- C1: for a token file that exists and is valid JSON but whose
`"dataprep_token"` field is absent or empty, `get_token` does not return
the `None` sentinel: the `ValueError` it raises is not in the caught
exception tuple (`FileNotFoundError`, `json.JSONDecodeError`) and escapes
the function.  Evaluated at both failing inputs. -/
theorem get_token_missing_field_raises :
    DataPrep.get_token (.content (.obj [])) =
      .error (.valueError "Token not found in dataprep_token.json") ∧
    DataPrep.get_token (.content (.obj [("dataprep_token", .str "")])) =
      .error (.valueError "Token not found in dataprep_token.json") :=
  ⟨rfl, rfl⟩

/-- C2: the script does not return normally on every failure path: with a
token file whose `"dataprep_token"` field is empty, the uncaught
`ValueError` raised inside `get_token` escapes `test_dataprep_connection`
and `main`, so the whole script terminates with an exception instead of
the logged `None`-sentinel short-circuit. -/
theorem main_crashes_on_empty_token_field :
    DataPrep.main (.content (.obj [("dataprep_token", .str "")]))
      ⟨none, none⟩ ⟨true, true, true, true⟩
      { probeResp := ⟨200, .obj [], ""⟩,
        flowResp := ⟨201, .obj [("id", .str "f")], ""⟩,
        connectionResp := ⟨201, .obj [("id", .str "c")], ""⟩,
        importResp := ⟨201, .obj [("id", .str "d")], ""⟩,
        wrangledResp := ⟨201, .obj [("id", .str "w")], ""⟩,
        jobResp := ⟨201, .obj [], ""⟩,
        jobStatusResp := ⟨200, .obj [], ""⟩ } =
      .error (.valueError "Token not found in dataprep_token.json") := rfl

/-- C5 counterexample: `HTTP_PROXY` set to the empty string is a set
environment variable, yet `get_proxies` returns `None` (Python truthiness
conflates it with an unset variable), so "returns None exactly when
neither variable is set" fails as stated. -/
theorem get_proxies_empty_string_counterexample :
    DataPrep.get_proxies ⟨some "", none⟩ = none ∧
    (DataPrep.Env.mk (some "") none).httpProxy ≠ none :=
  ⟨rfl, by simp⟩

/-- C5 amended: `get_proxies` returns `None` exactly when neither proxy
environment variable is set to a non-empty string; otherwise it returns a
configuration carrying both raw `os.getenv` results verbatim, so an unset
variable contributes `None`, never an empty string. -/
theorem get_proxies_spec : ∀ env : DataPrep.Env,
    (DataPrep.get_proxies env = none ↔
      DataPrep.strTruthy env.httpProxy = false ∧
      DataPrep.strTruthy env.httpsProxy = false) ∧
    ∀ p, DataPrep.get_proxies env = some p →
      p.http = env.httpProxy ∧ p.https = env.httpsProxy := by
  intro env
  constructor
  · rcases h1 : DataPrep.strTruthy env.httpProxy <;>
      rcases h2 : DataPrep.strTruthy env.httpsProxy <;>
      simp [DataPrep.get_proxies, h1, h2]
  · intro p hp
    rcases h1 : DataPrep.strTruthy env.httpProxy <;>
      rcases h2 : DataPrep.strTruthy env.httpsProxy <;>
      simp [DataPrep.get_proxies, h1, h2] at hp <;>
      simp [← hp]

/-- C5 witness: with only `HTTP_PROXY` set (to a non-empty URL) the
returned configuration carries the URL and `None`, with no empty string
injected for the unset variable. -/
theorem get_proxies_spec_witness :
    (DataPrep.Proxies.mk (some "http://proxy.example:3128") none).http =
      (DataPrep.Env.mk (some "http://proxy.example:3128") none).httpProxy ∧
    (DataPrep.Proxies.mk (some "http://proxy.example:3128") none).https =
      (DataPrep.Env.mk (some "http://proxy.example:3128") none).httpsProxy :=
  (get_proxies_spec ⟨some "http://proxy.example:3128", none⟩).2
    ⟨some "http://proxy.example:3128", none⟩ rfl

/-- C6 counterexample: when the dataset already exists, `create_dataset`
of `main.py` does not return the existing descriptor: the Python function
has no `return` statement, so its value is `None`. -/
theorem create_dataset_returns_none_counterexample :
    (BqMain.create_dataset "intrepid-signal-310513.bqml_lab"
      [⟨"intrepid-signal-310513.bqml_lab", none, none⟩]).1 = none ∧
    (BqMain.create_dataset "intrepid-signal-310513.bqml_lab"
      [⟨"intrepid-signal-310513.bqml_lab", none, none⟩]).1 ≠
      some ⟨"intrepid-signal-310513.bqml_lab", none, none⟩ :=
  ⟨rfl, by simp [BqMain.create_dataset, BqMain.clientCreateDataset]⟩

/-- C6 amended: for a dataset name that already exists, `create_dataset`
performs no duplicate-creation side effect (the catalog is unchanged),
the request descriptor it builds carries the fixed 59-day table and
partition expirations, and the function returns `None` (the existing
descriptor is only bound locally, never returned). -/
theorem create_dataset_idempotent : ∀ (st : BqMain.Catalog) (name : String),
    (st.find? (fun e => e.name = name)).isSome = true →
    (BqMain.create_dataset name st).2.1 = st ∧
    (BqMain.create_dataset name st).1 = none ∧
    (BqMain.dataset_request name).default_table_expiration_ms =
      some 5097600000 ∧
    (BqMain.dataset_request name).default_partition_expiration_ms =
      some 5097600000 := by
  intro st name h
  rcases hf : st.find? (fun e => e.name = name) with _ | d
  · rw [hf] at h; simp at h
  · refine ⟨?_, ?_, rfl, rfl⟩ <;>
      simp [BqMain.create_dataset, BqMain.clientCreateDataset,
        BqMain.dataset_request, hf]

/-- C6 witness: evaluated on a one-element catalog already holding the
dataset: the catalog is unchanged and nothing is returned. -/
theorem create_dataset_idempotent_witness :
    (BqMain.create_dataset "p.d" [⟨"p.d", some 1, some 1⟩]).2.1 =
      [⟨"p.d", some 1, some 1⟩] ∧
    (BqMain.create_dataset "p.d" [⟨"p.d", some 1, some 1⟩]).1 = none ∧
    (BqMain.dataset_request "p.d").default_table_expiration_ms =
      some 5097600000 ∧
    (BqMain.dataset_request "p.d").default_partition_expiration_ms =
      some 5097600000 :=
  create_dataset_idempotent [⟨"p.d", some 1, some 1⟩] "p.d" (by rfl)

/-- C7: with the remote service answering 201 with ids `flow-1`, `conn-1`
and `ds-1` for flow creation, connection creation and dataset import, the
orchestrator reports exactly those three identifiers. -/
theorem connect_end_to_end :
    (DataPrep.connect_bigquery_to_dataprep
      { probeResp := ⟨200, .obj [], ""⟩,
        flowResp := ⟨201, .obj [("id", .str "flow-1")], ""⟩,
        connectionResp := ⟨201, .obj [("id", .str "conn-1")], ""⟩,
        importResp := ⟨201, .obj [("id", .str "ds-1")], ""⟩,
        wrangledResp := ⟨201, .obj [("id", .str "wd-1")], ""⟩,
        jobResp := ⟨201, .obj [], ""⟩,
        jobStatusResp := ⟨200, .obj [], ""⟩ }).1 =
      .ok (some { flow_id := some (.str "flow-1"),
                  connection_id := some (.str "conn-1"),
                  dataset_id := some (.str "ds-1"),
                  wrangled_dataset_id := some (.str "wd-1") }) := rfl

/-- The pagination loop prints exactly the datasets of the pages from the
current token on, in page order, for any sufficient fuel. -/
theorem listLoop_flatten (pages : List (List String)) :
    ∀ (fuel tok : Nat), pages.length ≤ tok + fuel →
      BqMain.listLoop pages tok fuel =
        ((pages.drop tok).flatten).map (fun d => "Dataset ID: " ++ d) := by
  intro fuel
  induction fuel with
  | zero =>
    intro tok h
    simp at h
    simp [BqMain.listLoop, List.drop_eq_nil_of_le h]
  | succ fuel ih =>
    intro tok h
    by_cases htok : tok < pages.length
    · have hgetD : pages.getD tok [] = pages[tok] := by
        simp [List.getD_eq_getElem?_getD, List.getElem?_eq_getElem htok]
      by_cases hnext : tok + 1 < pages.length
      · simp only [BqMain.listLoop, BqMain.fetchPage, if_pos hnext, hgetD]
        rw [ih (tok + 1) (by omega), List.drop_eq_getElem_cons htok]
        simp only [List.flatten_cons, List.map_append]
      · simp only [BqMain.listLoop, BqMain.fetchPage, if_neg hnext, hgetD]
        rw [List.drop_eq_getElem_cons htok, List.drop_eq_nil_of_le (by omega)]
        simp
    · simp only [BqMain.listLoop, BqMain.fetchPage, if_neg (by omega : ¬ tok + 1 < pages.length)]
      rw [List.drop_eq_nil_of_le (by omega)]
      simp [List.getD_eq_getElem?_getD, List.getElem?_eq_none (by omega : pages.length ≤ tok)]

/-- C8: for every remote catalog given as a finite chain of pages,
`list_datasets` prints every dataset of every page exactly once, in page
order (its output is the flattening of the pages), and the loop stops at
the page without a continuation token. -/
theorem list_datasets_visits_every_page_once :
    ∀ pages : List (List String),
      BqMain.list_datasets pages =
        (pages.flatten).map (fun d => "Dataset ID: " ++ d) := by
  intro pages
  have h := listLoop_flatten pages pages.length 0 (by omega)
  simpa [BqMain.list_datasets] using h

/-- `Nat.digitChar` is injective on decimal digits. -/
theorem digitChar_injOn_digits :
    ∀ a < 10, ∀ b < 10, Nat.digitChar a = Nat.digitChar b → a = b := by decide

/-- Mapping `Nat.digitChar` over lists of decimal digits is injective. -/
theorem map_digitChar_inj : ∀ (l₁ l₂ : List Nat), (∀ x ∈ l₁, x < 10) →
    (∀ x ∈ l₂, x < 10) → l₁.map Nat.digitChar = l₂.map Nat.digitChar →
    l₁ = l₂ := by
  intro l₁
  induction l₁ with
  | nil =>
    intro l₂ _ _ h
    cases l₂ with
    | nil => rfl
    | cons b t₂ => simp at h
  | cons a t ih =>
    intro l₂ h1 h2 h
    cases l₂ with
    | nil => simp at h
    | cons b t₂ =>
      simp only [List.map_cons, List.cons.injEq] at h
      obtain ⟨hab, ht⟩ := h
      have hd : a = b :=
        digitChar_injOn_digits a (h1 a (by simp)) b (h2 b (by simp)) hab
      subst hd
      rw [ih t₂ (fun x hx => h1 x (by simp [hx]))
        (fun x hx => h2 x (by simp [hx])) ht]

/-- The decimal representation is injective on positive numbers. -/
theorem decimalRepr_inj {m n : Nat} (hm : m ≠ 0) (hn : n ≠ 0)
    (h : BqMain.decimalRepr m = BqMain.decimalRepr n) : m = n := by
  unfold BqMain.decimalRepr at h
  rw [if_neg hm, if_neg hn] at h
  have h2 : (Nat.digits 10 m).reverse.map Nat.digitChar =
      (Nat.digits 10 n).reverse.map Nat.digitChar := congrArg String.data h
  have h3 := map_digitChar_inj _ _
    (fun x hx => Nat.digits_lt_base (by omega) (List.mem_reverse.mp hx))
    (fun x hx => Nat.digits_lt_base (by omega) (List.mem_reverse.mp hx)) h2
  exact Nat.digits.injective 10 (List.reverse_injective h3)

/-- Appending a fixed string on the left is injective. -/
theorem strAppend_left_cancel (p x y : String) (h : p ++ x = p ++ y) :
    x = y := by
  have hd := congrArg String.data h
  rw [String.data_append, String.data_append] at hd
  exact String.ext (List.append_cancel_left hd)

/-- Strings wrapped in the same fixed head and tail are equal only when
the wrapped parts are. -/
theorem strWrap_inj (p s x y : String) (h : p ++ x ++ s = p ++ y ++ s) :
    x = y := by
  have hd := congrArg String.data h
  simp only [String.data_append] at hd
  exact String.ext (List.append_cancel_left (List.append_cancel_right hd))

/-- The model name is injective in the random draw (for positive draws). -/
theorem MODEL_NAME_inj {r₁ r₂ : Nat} (h1 : r₁ ≠ 0) (h2 : r₂ ≠ 0)
    (h : BqMain.MODEL_NAME r₁ = BqMain.MODEL_NAME r₂) : r₁ = r₂ :=
  decimalRepr_inj h1 h2 (strAppend_left_cancel _ _ _ h)

/-- C10: the BigQuery ML script is not deterministic across runs.  The
model name embeds the random draw `r` of `random.randint(100000, 999999)`
made once at module load; every one of the four SQL statements of a run
contains that one name, and two runs with different draws produce a
different name and four different statements each. -/
theorem model_name_randomized :
    (∀ r : Nat,
      List.IsInfix (BqMain.MODEL_NAME r).data (BqMain.create_ml_model_sql r).data ∧
      List.IsInfix (BqMain.MODEL_NAME r).data (BqMain.evaluate_model_sql r).data ∧
      List.IsInfix (BqMain.MODEL_NAME r).data (BqMain.predict_model_sql r).data ∧
      List.IsInfix (BqMain.MODEL_NAME r).data (BqMain.delete_model_sql r).data) ∧
    (∀ r₁ r₂ : Nat, 100000 ≤ r₁ → r₁ ≤ 999999 → 100000 ≤ r₂ → r₂ ≤ 999999 →
      r₁ ≠ r₂ →
      BqMain.MODEL_NAME r₁ ≠ BqMain.MODEL_NAME r₂ ∧
      BqMain.create_ml_model_sql r₁ ≠ BqMain.create_ml_model_sql r₂ ∧
      BqMain.evaluate_model_sql r₁ ≠ BqMain.evaluate_model_sql r₂ ∧
      BqMain.predict_model_sql r₁ ≠ BqMain.predict_model_sql r₂ ∧
      BqMain.delete_model_sql r₁ ≠ BqMain.delete_model_sql r₂) := by
  constructor
  · intro r
    refine ⟨⟨BqMain.create_ml_model_sql_head.data,
        BqMain.create_ml_model_sql_tail.data, ?_⟩,
      ⟨BqMain.evaluate_model_sql_head.data,
        BqMain.evaluate_model_sql_tail.data, ?_⟩,
      ⟨BqMain.predict_model_sql_head.data,
        BqMain.predict_model_sql_tail.data, ?_⟩,
      ⟨BqMain.delete_model_sql_head.data, ("`;" : String).data, ?_⟩⟩ <;>
      simp [BqMain.create_ml_model_sql, BqMain.evaluate_model_sql,
        BqMain.predict_model_sql, BqMain.delete_model_sql, String.data_append]
  · intro r₁ r₂ hl1 hu1 hl2 hu2 hne
    have hinj : BqMain.MODEL_NAME r₁ = BqMain.MODEL_NAME r₂ → r₁ = r₂ :=
      MODEL_NAME_inj (by omega) (by omega)
    refine ⟨fun h => hne (hinj h), fun h => hne (hinj ?_), fun h => hne (hinj ?_),
      fun h => hne (hinj ?_), fun h => hne (hinj ?_)⟩
    · exact strWrap_inj _ _ _ _ h
    · exact strWrap_inj _ _ _ _ h
    · exact strWrap_inj _ _ _ _ h
    · exact strWrap_inj _ _ _ _ h

/-- C10 witness: two concrete draws from the randint range produce a
different model name and four different statements. -/
theorem model_name_randomized_witness :
    BqMain.MODEL_NAME 100000 ≠ BqMain.MODEL_NAME 999999 ∧
    BqMain.create_ml_model_sql 100000 ≠ BqMain.create_ml_model_sql 999999 ∧
    BqMain.evaluate_model_sql 100000 ≠ BqMain.evaluate_model_sql 999999 ∧
    BqMain.predict_model_sql 100000 ≠ BqMain.predict_model_sql 999999 ∧
    BqMain.delete_model_sql 100000 ≠ BqMain.delete_model_sql 999999 :=
  model_name_randomized.2 100000 999999 (by decide) (by decide) (by decide)
    (by decide) (by decide)

open DataPrep

/-- A step result is a "missing id" exactly when the call returned a falsy
value. -/
theorem idMissing_iff {r : Except PyErr (Option Json)} :
    idMissing r = true ↔ ∃ j, r = .ok j ∧ optTruthy j = false := by
  cases r <;> simp [idMissing]

/-- A step result is a usable id exactly when the call returned a truthy
value. -/
theorem idOk_iff {r : Except PyErr (Option Json)} :
    idOk r = true ↔ ∃ j, r = .ok j ∧ optTruthy j = true := by
  cases r <;> simp [idOk]

/-- `create_flow` always issues exactly its own REST call. -/
theorem create_flow_calls (stub : DataprepStub) :
    (create_flow stub).2.1 = [ApiCall.createFlow] := by
  by_cases h : stub.flowResp.status_code = 201 <;> simp [create_flow, h]

/-- `create_bigquery_connection` always issues exactly its own REST call. -/
theorem create_bigquery_connection_calls (stub : DataprepStub) :
    (create_bigquery_connection stub).2.1 = [ApiCall.createConnection] := by
  by_cases h : stub.connectionResp.status_code = 201 <;>
    simp [create_bigquery_connection, h]

/-- `import_bigquery_dataset` always issues exactly its own REST call. -/
theorem import_bigquery_dataset_calls (stub : DataprepStub) :
    (import_bigquery_dataset stub).2.1 = [ApiCall.importDataset] := by
  by_cases h : stub.importResp.status_code = 201 <;>
    simp [import_bigquery_dataset, h]

/-- `create_wrangled_dataset` always issues exactly its own REST call. -/
theorem create_wrangled_dataset_calls (stub : DataprepStub) :
    (create_wrangled_dataset stub).2.1 = [ApiCall.createWrangled] := by
  by_cases h : stub.wrangledResp.status_code = 201 <;>
    simp [create_wrangled_dataset, h]

/-- C4 counterexample: `check_job_status` is a Dataprep REST operation
whose response has its success code 200 and carries an `"id"` field, yet
the id is not extracted or returned: the operation extracts the
`"status"` field, which is absent here, so it returns `None`. -/
theorem job_status_no_id_extracted_counterexample :
    (check_job_status
      { probeResp := ⟨0, .null, ""⟩, flowResp := ⟨0, .null, ""⟩,
        connectionResp := ⟨0, .null, ""⟩, importResp := ⟨0, .null, ""⟩,
        wrangledResp := ⟨0, .null, ""⟩, jobResp := ⟨0, .null, ""⟩,
        jobStatusResp := ⟨200, .obj [("id", .str "job-7")], ""⟩ }).1 =
      .ok none ∧
    dictGet (Json.obj [("id", .str "job-7")]) "id" =
      .ok (some (.str "job-7")) :=
  ⟨rfl, rfl⟩

/-- C4 amended: for every Dataprep REST operation, a response status code
outside the operation's success code (201 for the POSTs, 200 for the GETs)
makes the operation return the `None` failure sentinel (no field is
extracted) and log the status code and response body; on the success code
the operation's documented output is extracted: the `"id"` field for the
creations and the job launch, the `"status"` field for the job poll, and
a success boolean for the connectivity probe. -/
theorem rest_status_code_contract :
    ∀ stub : DataprepStub,
      (stub.flowResp.status_code ≠ 201 →
        (create_flow stub).1 = .ok none ∧
        ("Status Code: " ++ toString stub.flowResp.status_code) ∈
          (create_flow stub).2.2 ∧
        ("Response: " ++ stub.flowResp.text) ∈ (create_flow stub).2.2) ∧
      (stub.flowResp.status_code = 201 →
        (create_flow stub).1 = dictGet stub.flowResp.body "id") ∧
      (stub.connectionResp.status_code ≠ 201 →
        (create_bigquery_connection stub).1 = .ok none ∧
        ("Status Code: " ++ toString stub.connectionResp.status_code) ∈
          (create_bigquery_connection stub).2.2 ∧
        ("Response: " ++ stub.connectionResp.text) ∈
          (create_bigquery_connection stub).2.2) ∧
      (stub.connectionResp.status_code = 201 →
        (create_bigquery_connection stub).1 =
          dictGet stub.connectionResp.body "id") ∧
      (stub.importResp.status_code ≠ 201 →
        (import_bigquery_dataset stub).1 = .ok none ∧
        ("Status Code: " ++ toString stub.importResp.status_code) ∈
          (import_bigquery_dataset stub).2.2 ∧
        ("Response: " ++ stub.importResp.text) ∈
          (import_bigquery_dataset stub).2.2) ∧
      (stub.importResp.status_code = 201 →
        (import_bigquery_dataset stub).1 = dictGet stub.importResp.body "id") ∧
      (stub.wrangledResp.status_code ≠ 201 →
        (create_wrangled_dataset stub).1 = .ok none ∧
        ("Status Code: " ++ toString stub.wrangledResp.status_code) ∈
          (create_wrangled_dataset stub).2.2 ∧
        ("Response: " ++ stub.wrangledResp.text) ∈
          (create_wrangled_dataset stub).2.2) ∧
      (stub.wrangledResp.status_code = 201 →
        (create_wrangled_dataset stub).1 =
          dictGet stub.wrangledResp.body "id") ∧
      (∀ file tok wr, optTruthy tok = true → optTruthy wr = true →
        stub.jobResp.status_code ≠ 201 →
        (run_dataprep_job file stub tok wr).1 = .ok none ∧
        ("Status Code: " ++ toString stub.jobResp.status_code) ∈
          (run_dataprep_job file stub tok wr).2.2 ∧
        ("Response: " ++ stub.jobResp.text) ∈
          (run_dataprep_job file stub tok wr).2.2) ∧
      (∀ file tok wr job_id st, optTruthy tok = true → optTruthy wr = true →
        stub.jobResp.status_code = 201 →
        dictGet stub.jobResp.body "id" = .ok job_id →
        (check_job_status stub).1 = .ok st →
        (run_dataprep_job file stub tok wr).1 = .ok job_id) ∧
      (stub.jobStatusResp.status_code ≠ 200 →
        (check_job_status stub).1 = .ok none ∧
        ("Status Code: " ++ toString stub.jobStatusResp.status_code) ∈
          (check_job_status stub).2.2 ∧
        ("Response: " ++ stub.jobStatusResp.text) ∈
          (check_job_status stub).2.2) ∧
      (stub.jobStatusResp.status_code = 200 →
        (check_job_status stub).1 = dictGet stub.jobStatusResp.body "status") ∧
      (∀ file t, get_token file = .ok (some t, []) → t.truthy = true →
        (stub.probeResp.status_code ≠ 200 →
          ∃ calls lg, test_dataprep_connection file stub = .ok (false, calls, lg) ∧
            ("Status Code: " ++ toString stub.probeResp.status_code) ∈ lg ∧
            ("Response: " ++ stub.probeResp.text) ∈ lg) ∧
        (stub.probeResp.status_code = 200 →
          ∃ calls lg,
            test_dataprep_connection file stub = .ok (true, calls, lg))) := by
  intro stub
  refine ⟨?_, ?_, ?_, ?_, ?_, ?_, ?_, ?_, ?_, ?_, ?_, ?_, ?_⟩
  · intro h; refine ⟨?_, ?_, ?_⟩ <;> simp [create_flow, h]
  · intro h; simp [create_flow, h]
  · intro h; refine ⟨?_, ?_, ?_⟩ <;> simp [create_bigquery_connection, h]
  · intro h; simp [create_bigquery_connection, h]
  · intro h; refine ⟨?_, ?_, ?_⟩ <;> simp [import_bigquery_dataset, h]
  · intro h; simp [import_bigquery_dataset, h]
  · intro h; refine ⟨?_, ?_, ?_⟩ <;> simp [create_wrangled_dataset, h]
  · intro h; simp [create_wrangled_dataset, h]
  · intro file tok wr htok hwr h
    refine ⟨?_, ?_, ?_⟩ <;> simp [run_dataprep_job, htok, hwr, h]
  · intro file tok wr job_id st htok hwr h hid hst
    rcases hcs : check_job_status stub with ⟨res, stCalls, stLog⟩
    rw [hcs] at hst
    simp only at hst
    subst hst
    simp [run_dataprep_job, htok, hwr, h, hid, hcs]
  · intro h; refine ⟨?_, ?_, ?_⟩ <;> simp [check_job_status, h]
  · intro h
    cases hd : dictGet stub.jobStatusResp.body "status" <;>
      simp [check_job_status, h, hd]
  · intro file t htok htruthy
    constructor
    · intro h
      refine ⟨[ApiCall.probe],
        ["Failed to connect to Cloud Dataprep API.",
         "Status Code: " ++ toString stub.probeResp.status_code,
         "Response: " ++ stub.probeResp.text], ?_, ?_, ?_⟩
      · simp [test_dataprep_connection, htok, optTruthy, htruthy, h]
      · simp
      · simp
    · intro h
      refine ⟨[ApiCall.probe],
        ["Connection to Cloud Dataprep API successful."], ?_⟩
      simp [test_dataprep_connection, htok, optTruthy, htruthy, h]

/-- C4 witness: a 404 on flow creation yields the sentinel and the logged
status and body, evaluated concretely. -/
theorem rest_status_code_contract_witness :
    (create_flow
      { probeResp := ⟨200, .obj [], ""⟩,
        flowResp := ⟨404, .obj [], "not found"⟩,
        connectionResp := ⟨201, .obj [], ""⟩, importResp := ⟨201, .obj [], ""⟩,
        wrangledResp := ⟨201, .obj [], ""⟩, jobResp := ⟨201, .obj [], ""⟩,
        jobStatusResp := ⟨200, .obj [], ""⟩ }).1 = .ok none ∧
    "Status Code: 404" ∈
      (create_flow
        { probeResp := ⟨200, .obj [], ""⟩,
          flowResp := ⟨404, .obj [], "not found"⟩,
          connectionResp := ⟨201, .obj [], ""⟩, importResp := ⟨201, .obj [], ""⟩,
          wrangledResp := ⟨201, .obj [], ""⟩, jobResp := ⟨201, .obj [], ""⟩,
          jobStatusResp := ⟨200, .obj [], ""⟩ }).2.2 ∧
    "Response: not found" ∈
      (create_flow
        { probeResp := ⟨200, .obj [], ""⟩,
          flowResp := ⟨404, .obj [], "not found"⟩,
          connectionResp := ⟨201, .obj [], ""⟩, importResp := ⟨201, .obj [], ""⟩,
          wrangledResp := ⟨201, .obj [], ""⟩, jobResp := ⟨201, .obj [], ""⟩,
          jobStatusResp := ⟨200, .obj [], ""⟩ }).2.2 :=
  (rest_status_code_contract
    { probeResp := ⟨200, .obj [], ""⟩,
      flowResp := ⟨404, .obj [], "not found"⟩,
      connectionResp := ⟨201, .obj [], ""⟩, importResp := ⟨201, .obj [], ""⟩,
      wrangledResp := ⟨201, .obj [], ""⟩, jobResp := ⟨201, .obj [], ""⟩,
      jobStatusResp := ⟨200, .obj [], ""⟩ }).1 (by decide)

/-- When the query succeeds and the dataset either exists or can be
created, step 2 of `data_prep.py` succeeds. -/
theorem create_bigquery_dataset_ok (w : BqWorld) (hquery : w.queryOk = true)
    (hds : w.datasetExists = true ∨ w.createDatasetOk = true) :
    ∃ lg, create_bigquery_dataset true w = (true, true, lg) := by
  cases hde : w.datasetExists
  · have hcr : w.createDatasetOk = true := by simpa [hde] using hds
    exact ⟨["Dataset ecommerce created.",
      "Table all_sessions_raw_dataprep created with sample data."],
      by simp [create_bigquery_dataset, hde, hcr, hquery]⟩
  · exact ⟨["Dataset ecommerce already exists.",
      "Table all_sessions_raw_dataprep created with sample data."],
      by simp [create_bigquery_dataset, hde, hquery]⟩

/-- Evaluation of `main` on a world that reaches step 3: the outcome of
the whole run is decided by `connect_bigquery_to_dataprep`, and the
terminal line printed is the failure message exactly when it returned the
`None` sentinel. -/
theorem main_step3_eval (file : TokenFile) (env : Env) (w : BqWorld)
    (stub : DataprepStub) (t : Json)
    (htok : get_token file = .ok (some t, []))
    (htruthy : t.truthy = true)
    (hprobe : stub.probeResp.status_code = 200)
    (hclient : w.clientInitOk = true)
    (hquery : w.queryOk = true)
    (hds : w.datasetExists = true ∨ w.createDatasetOk = true) :
    ∀ res calls2 connectLog,
      connect_bigquery_to_dataprep stub = (res, calls2, connectLog) →
      (res = .ok none →
        ∃ calls lg, main file env w stub = .ok (calls, lg) ∧
          "Failed to connect BigQuery data to Cloud Dataprep. Exiting." ∈ lg) ∧
      (∀ r, res = .ok (some r) →
        ∃ calls lg, main file env w stub = .ok (calls, lg) ∧
          "All steps completed successfully!" ∈ lg) := by
  intro res calls2 connectLog hconn
  obtain ⟨bqlog, hbq⟩ := create_bigquery_dataset_ok w hquery hds
  constructor
  · rintro rfl
    simp [main, authenticate_with_gcp, hclient, test_dataprep_connection,
      htok, optTruthy, htruthy, hprobe, hbq, hconn]
    exact ⟨_, _, ⟨rfl, rfl⟩, by simp⟩
  · rintro r rfl
    simp [main, authenticate_with_gcp, hclient, test_dataprep_connection,
      htok, optTruthy, htruthy, hprobe, hbq, hconn]
    exact ⟨_, _, ⟨rfl, rfl⟩, by simp⟩

/-- C3: the pipeline short-circuits on each step's failure.  When
`create_flow` returns no id, the connection, import and wrangle calls are
never issued (the trace stops at the flow call) and the orchestrator
returns the `None` sentinel; likewise a connection failure stops before
the import call and an import failure stops before the wrangle call.  A
flow failure prints its failure line, and whenever the orchestrator
returns `None` on a run that reached step 3, `main` prints the terminal
`Exiting` message. -/
theorem pipeline_short_circuit :
    ∀ stub : DataprepStub,
      (idMissing (create_flow stub).1 = true →
        (connect_bigquery_to_dataprep stub).1 = .ok none ∧
        (connect_bigquery_to_dataprep stub).2.1 = [ApiCall.createFlow]) ∧
      (idOk (create_flow stub).1 = true →
       idMissing (create_bigquery_connection stub).1 = true →
        (connect_bigquery_to_dataprep stub).1 = .ok none ∧
        (connect_bigquery_to_dataprep stub).2.1 =
          [ApiCall.createFlow, ApiCall.createConnection]) ∧
      (idOk (create_flow stub).1 = true →
       idOk (create_bigquery_connection stub).1 = true →
       idMissing (import_bigquery_dataset stub).1 = true →
        (connect_bigquery_to_dataprep stub).1 = .ok none ∧
        (connect_bigquery_to_dataprep stub).2.1 =
          [ApiCall.createFlow, ApiCall.createConnection,
           ApiCall.importDataset]) ∧
      (stub.flowResp.status_code ≠ 201 →
        "Failed to create flow." ∈ (connect_bigquery_to_dataprep stub).2.2) ∧
      (∀ (file : TokenFile) (env : Env) (w : BqWorld) (t : Json),
        get_token file = .ok (some t, []) → t.truthy = true →
        stub.probeResp.status_code = 200 → w.clientInitOk = true →
        w.queryOk = true →
        (w.datasetExists = true ∨ w.createDatasetOk = true) →
        (connect_bigquery_to_dataprep stub).1 = .ok none →
        ∃ calls lg, main file env w stub = .ok (calls, lg) ∧
          "Failed to connect BigQuery data to Cloud Dataprep. Exiting." ∈ lg) := by
  intro stub
  refine ⟨?_, ?_, ?_, ?_, ?_⟩
  · intro h
    rw [idMissing_iff] at h
    obtain ⟨j, hj, hjf⟩ := h
    have hc := create_flow_calls stub
    rcases hfl : create_flow stub with ⟨res, c1, l1⟩
    rw [hfl] at hj hc
    simp only at hj hc
    subst hj
    constructor
    · simp [connect_bigquery_to_dataprep, hfl, hjf]
    · simp [connect_bigquery_to_dataprep, hfl, hjf, hc]
  · intro h1 h2
    rw [idOk_iff] at h1
    rw [idMissing_iff] at h2
    obtain ⟨j1, hj1, ht1⟩ := h1
    obtain ⟨j2, hj2, ht2⟩ := h2
    have hcf := create_flow_calls stub
    have hcc := create_bigquery_connection_calls stub
    rcases hfl : create_flow stub with ⟨res1, c1, l1⟩
    rcases hcn : create_bigquery_connection stub with ⟨res2, c2, l2⟩
    rw [hfl] at hj1 hcf
    rw [hcn] at hj2 hcc
    simp only at hj1 hj2 hcf hcc
    subst hj1
    subst hj2
    constructor
    · simp [connect_bigquery_to_dataprep, hfl, hcn, ht1, ht2]
    · simp [connect_bigquery_to_dataprep, hfl, hcn, ht1, ht2, hcf, hcc]
  · intro h1 h2 h3
    rw [idOk_iff] at h1 h2
    rw [idMissing_iff] at h3
    obtain ⟨j1, hj1, ht1⟩ := h1
    obtain ⟨j2, hj2, ht2⟩ := h2
    obtain ⟨j3, hj3, ht3⟩ := h3
    have hcf := create_flow_calls stub
    have hcc := create_bigquery_connection_calls stub
    have hci := import_bigquery_dataset_calls stub
    rcases hfl : create_flow stub with ⟨res1, c1, l1⟩
    rcases hcn : create_bigquery_connection stub with ⟨res2, c2, l2⟩
    rcases him : import_bigquery_dataset stub with ⟨res3, c3, l3⟩
    rw [hfl] at hj1 hcf
    rw [hcn] at hj2 hcc
    rw [him] at hj3 hci
    simp only at hj1 hj2 hj3 hcf hcc hci
    subst hj1
    subst hj2
    subst hj3
    constructor
    · simp [connect_bigquery_to_dataprep, hfl, hcn, him, ht1, ht2, ht3]
    · simp [connect_bigquery_to_dataprep, hfl, hcn, him, ht1, ht2, ht3,
        hcf, hcc, hci]
  · intro h
    simp [connect_bigquery_to_dataprep, create_flow, h, optTruthy]
  · intro file env w t htok htruthy hprobe hclient hquery hds hnone
    rcases hconn : connect_bigquery_to_dataprep stub with ⟨res, cc, lc⟩
    rw [hconn] at hnone
    simp only at hnone
    subst hnone
    exact (main_step3_eval file env w stub t htok htruthy hprobe hclient
      hquery hds _ _ _ hconn).1 rfl

/-- C3 witness: with a 404 on flow creation, the orchestrator issues only
the flow call and returns the sentinel. -/
theorem pipeline_short_circuit_witness :
    (connect_bigquery_to_dataprep
      { probeResp := ⟨200, .obj [], ""⟩,
        flowResp := ⟨404, .obj [], "boom"⟩,
        connectionResp := ⟨201, .obj [("id", .str "c")], ""⟩,
        importResp := ⟨201, .obj [("id", .str "d")], ""⟩,
        wrangledResp := ⟨201, .obj [("id", .str "w")], ""⟩,
        jobResp := ⟨201, .obj [], ""⟩,
        jobStatusResp := ⟨200, .obj [], ""⟩ }).1 = .ok none ∧
    (connect_bigquery_to_dataprep
      { probeResp := ⟨200, .obj [], ""⟩,
        flowResp := ⟨404, .obj [], "boom"⟩,
        connectionResp := ⟨201, .obj [("id", .str "c")], ""⟩,
        importResp := ⟨201, .obj [("id", .str "d")], ""⟩,
        wrangledResp := ⟨201, .obj [("id", .str "w")], ""⟩,
        jobResp := ⟨201, .obj [], ""⟩,
        jobStatusResp := ⟨200, .obj [], ""⟩ }).2.1 = [ApiCall.createFlow] :=
  (pipeline_short_circuit
    { probeResp := ⟨200, .obj [], ""⟩,
      flowResp := ⟨404, .obj [], "boom"⟩,
      connectionResp := ⟨201, .obj [("id", .str "c")], ""⟩,
      importResp := ⟨201, .obj [("id", .str "d")], ""⟩,
      wrangledResp := ⟨201, .obj [("id", .str "w")], ""⟩,
      jobResp := ⟨201, .obj [], ""⟩,
      jobStatusResp := ⟨200, .obj [], ""⟩ }).1 (by rfl)

/-- C9: when the flow, connection and import steps all return usable ids
but the wrangled-dataset step fails, the orchestrator still returns a
non-`None` result whose `wrangled_dataset_id` holds the failure sentinel,
and on a run that reached step 3, `main` still prints the overall-success
message: the final step's failure is not propagated. -/
theorem final_step_failure_not_propagated :
    ∀ stub : DataprepStub,
      idOk (create_flow stub).1 = true →
      idOk (create_bigquery_connection stub).1 = true →
      idOk (import_bigquery_dataset stub).1 = true →
      idMissing (create_wrangled_dataset stub).1 = true →
      (∃ r, (connect_bigquery_to_dataprep stub).1 = .ok (some r) ∧
        optTruthy r.wrangled_dataset_id = false) ∧
      (∀ (file : TokenFile) (env : Env) (w : BqWorld) (t : Json),
        get_token file = .ok (some t, []) → t.truthy = true →
        stub.probeResp.status_code = 200 → w.clientInitOk = true →
        w.queryOk = true →
        (w.datasetExists = true ∨ w.createDatasetOk = true) →
        ∃ calls lg, main file env w stub = .ok (calls, lg) ∧
          "All steps completed successfully!" ∈ lg) := by
  intro stub h1 h2 h3 h4
  rw [idOk_iff] at h1 h2 h3
  rw [idMissing_iff] at h4
  obtain ⟨j1, hj1, ht1⟩ := h1
  obtain ⟨j2, hj2, ht2⟩ := h2
  obtain ⟨j3, hj3, ht3⟩ := h3
  obtain ⟨j4, hj4, ht4⟩ := h4
  rcases hfl : create_flow stub with ⟨r1, c1, l1⟩
  rcases hcn : create_bigquery_connection stub with ⟨r2, c2, l2⟩
  rcases him : import_bigquery_dataset stub with ⟨r3, c3, l3⟩
  rcases hwr : create_wrangled_dataset stub with ⟨r4, c4, l4⟩
  rw [hfl] at hj1
  rw [hcn] at hj2
  rw [him] at hj3
  rw [hwr] at hj4
  simp only at hj1 hj2 hj3 hj4
  subst hj1
  subst hj2
  subst hj3
  subst hj4
  have hres : (connect_bigquery_to_dataprep stub).1 =
      .ok (some ⟨j1, j2, j3, j4⟩) := by
    simp [connect_bigquery_to_dataprep, hfl, hcn, him, hwr, ht1, ht2, ht3]
  constructor
  · exact ⟨⟨j1, j2, j3, j4⟩, hres, ht4⟩
  · intro file env w t htok htruthy hprobe hclient hquery hds
    rcases hconn : connect_bigquery_to_dataprep stub with ⟨res, cc, lc⟩
    rw [hconn] at hres
    simp only at hres
    subst hres
    exact (main_step3_eval file env w stub t htok htruthy hprobe hclient
      hquery hds _ _ _ hconn).2 ⟨j1, j2, j3, j4⟩ rfl

/-- C9 witness: a run whose wrangle step answers 404 while the three
earlier steps succeed still ends with the overall-success message. -/
theorem final_step_failure_not_propagated_witness :
    ∃ calls lg,
      main (.content (.obj [("dataprep_token", .str "tok")])) ⟨none, none⟩
        ⟨true, true, true, true⟩
        { probeResp := ⟨200, .obj [], ""⟩,
          flowResp := ⟨201, .obj [("id", .str "f")], ""⟩,
          connectionResp := ⟨201, .obj [("id", .str "c")], ""⟩,
          importResp := ⟨201, .obj [("id", .str "d")], ""⟩,
          wrangledResp := ⟨404, .obj [], "boom"⟩,
          jobResp := ⟨201, .obj [], ""⟩,
          jobStatusResp := ⟨200, .obj [], ""⟩ } = .ok (calls, lg) ∧
      "All steps completed successfully!" ∈ lg :=
  (final_step_failure_not_propagated
    { probeResp := ⟨200, .obj [], ""⟩,
      flowResp := ⟨201, .obj [("id", .str "f")], ""⟩,
      connectionResp := ⟨201, .obj [("id", .str "c")], ""⟩,
      importResp := ⟨201, .obj [("id", .str "d")], ""⟩,
      wrangledResp := ⟨404, .obj [], "boom"⟩,
      jobResp := ⟨201, .obj [], ""⟩,
      jobStatusResp := ⟨200, .obj [], ""⟩ }
    (by rfl) (by rfl) (by rfl) (by rfl)).2
    (.content (.obj [("dataprep_token", .str "tok")])) ⟨none, none⟩
    ⟨true, true, true, true⟩ (.str "tok")
    (by rfl) (by rfl) (by rfl) (by rfl) (by rfl) (Or.inl rfl)
